import Mathlib

/-!
Shallow embedding of the challenge-orchestration logic of `src/src/App.tsx`
(the single source file of the repository).  The React component's state
hooks become fields of `AppState`; each handler becomes a pure state
transformer; the browser timer environment (`setInterval`, `setTimeout`,
`clearInterval`, `clearTimeout`) is modelled explicitly by lists of live
timer ids, so that "two concurrent countdown intervals" is a statable
property.  Asynchronous or random inputs (`Math.random()` draws, the
resolution of `getUserMedia`) are passed as explicit parameters.  Observable
callbacks (ticks, dot moves, completion, alerts, result submission) are
emitted as an event list.
-/

set_option maxHeartbeats 1000000
set_option linter.unusedVariables false

namespace BioMetric

/-- Pass/fail verdict (`'PASS' | 'FAIL'` in `App.tsx`, line 10). -/
inductive Status where
  | PASS
  | FAIL
  deriving DecidableEq

/-- `ChallengeResult` record (`App.tsx` lines 9-13): status, duration in
seconds, and creation instant (`new Date()` modelled as an abstract clock
value). -/
structure ChallengeResult where
  status : Status
  duration : ℕ
  timestamp : ℕ
  deriving DecidableEq

/-- Code points removed by JavaScript `String.prototype.trim` (ECMA-262
WhiteSpace and LineTerminator). -/
def jsWhitespace (c : Char) : Bool :=
  ([0x9, 0xA, 0xB, 0xC, 0xD, 0x20, 0xA0, 0x1680,
    0x2000, 0x2001, 0x2002, 0x2003, 0x2004, 0x2005, 0x2006, 0x2007,
    0x2008, 0x2009, 0x200A, 0x2028, 0x2029, 0x202F, 0x205F, 0x3000,
    0xFEFF] : List ℕ).contains c.toNat

/-- JavaScript `String.prototype.trim` on a string represented as a list of
characters: drop whitespace from the front, then from the back. -/
def trimL (l : List Char) : List Char :=
  ((l.dropWhile jsWhitespace).reverse.dropWhile jsWhitespace).reverse

/-- `moveInterval` constant of `moveDotRandomly` (`App.tsx` line 94). -/
def moveInterval : ℕ := 800

/-- `totalDuration` constant of `moveDotRandomly` (`App.tsx` line 95). -/
def totalDuration : ℕ := 6000

/-- One coordinate sample of `moveDot` (`App.tsx` lines 99-100):
`Math.random() * 80 + 10`, with the uniform draw `r ∈ [0,1)` passed
explicitly as a rational. -/
def sampleCoord (r : ℚ) : ℚ := r * 80 + 10

/-- Real-valued form of `sampleCoord`, used to state the distribution of the
sampled coordinate under the uniform draw on `[0,1)`. -/
def sampleCoordR (r : ℝ) : ℝ := r * 80 + 10

/-- The verdict draw of `endChallenge` (`App.tsx` line 127):
`const success = Math.random() > 0.3`, PASS on success. -/
def evaluateVerdict (r : ℚ) : Status :=
  if r > 3/10 then Status.PASS else Status.FAIL

/-- The component state of `App.tsx`: every `useState` hook and `useRef` of
the component, plus an explicit model of the browser timer environment and
of the media streams.

* `userName`/`userEmail`: the `user` state (line 16), strings as `List Char`.
* `isRegistered`, `isCameraActive`, `isChallengeActive`, `challengeResult`,
  `timeLeft`, `dotPosition`: the remaining `useState` hooks (lines 17-22).
* `videoMounted`: whether `videoRef.current` is a mounted element (the
  `<video>` sink is rendered by the environment); `videoSrc`: its
  `srcObject`.
* `streamRef`, `challengeTimerRef`, `dotTimerRef`: the `useRef` cells
  (lines 25-27), holding ids.
* `dotElapsed`: the `elapsed` closure variable of the live
  `moveDotRandomly` run (line 96).
* `liveIntervals`/`liveTimeouts`: ids of intervals/timeouts that have been
  created and not yet cleared (a timeout is also removed when it fires);
  `nextTimerId` generates fresh ids.
* `stoppedStreams`: ids of streams whose tracks have been stopped.
* `pendingAcquisition`: a `getUserMedia` promise is outstanding.
* `appMounted`: the component is mounted (UI events can occur).
* `clock`: abstract current instant, used for result timestamps. -/
structure AppState where
  userName : List Char
  userEmail : List Char
  isRegistered : Bool
  isCameraActive : Bool
  isChallengeActive : Bool
  challengeResult : Option ChallengeResult
  timeLeft : ℕ
  dotPosition : ℚ × ℚ
  videoMounted : Bool
  videoSrc : Option ℕ
  streamRef : Option ℕ
  challengeTimerRef : Option ℕ
  dotTimerRef : Option ℕ
  dotElapsed : ℕ
  liveIntervals : List ℕ
  liveTimeouts : List ℕ
  stoppedStreams : List ℕ
  nextTimerId : ℕ
  pendingAcquisition : Bool
  appMounted : Bool
  clock : ℕ
  deriving DecidableEq

/-- Initial component state (the `useState` initial values of
`App.tsx` lines 16-22), freshly mounted. -/
def init : AppState :=
  { userName := [], userEmail := [], isRegistered := false,
    isCameraActive := false, isChallengeActive := false,
    challengeResult := none, timeLeft := 0, dotPosition := (50, 50),
    videoMounted := false, videoSrc := none, streamRef := none,
    challengeTimerRef := none, dotTimerRef := none, dotElapsed := 0,
    liveIntervals := [], liveTimeouts := [], stoppedStreams := [],
    nextTimerId := 0, pendingAcquisition := false, appMounted := true,
    clock := 0 }

/-- Observable events emitted by the handlers: countdown state updates
(`setTimeLeft`), dot moves (`setDotPosition`), challenge completion
(`endChallenge` invocation), the two `alert` calls, and result
submission. -/
inductive Ev where
  | tick (remaining : ℕ)
  | complete
  | move (x y : ℚ)
  | validationAlert
  | cameraAlert
  | publish (r : ChallengeResult)
  deriving DecidableEq

/-- `stopCamera` (`App.tsx` lines 51-57): if a stream is held, stop all its
tracks, null the ref and clear the camera-active flag; otherwise do
nothing. -/
def stopCamera (s : AppState) : AppState :=
  match s.streamRef with
  | some k =>
      { s with stoppedStreams := s.stoppedStreams ++ [k],
               streamRef := none, isCameraActive := false }
  | none => s

/-- The resolution handler of `startCamera` (`App.tsx` lines 30-48) when
`getUserMedia` succeeds with stream `k`: only if the video sink element is
mounted (`videoRef.current` non-null) is the stream bound to the sink,
stored in `streamRef`, and the camera-active flag set; otherwise nothing
happens (the fresh stream is neither stored nor stopped). -/
def startCameraResolve (k : ℕ) (s : AppState) : AppState :=
  if s.videoMounted = true then
    { s with videoSrc := some k, streamRef := some k, isCameraActive := true }
  else s

/-- `handleRegister` (`App.tsx` lines 60-67): JavaScript truthiness of
`user.name.trim() && user.email.trim() && user.email.includes('@')`.  On
success, set the registered flag and launch camera acquisition (a pending
`getUserMedia` promise); otherwise show the validation alert and leave the
state unchanged. -/
def handleRegister (s : AppState) : AppState × List Ev :=
  if trimL s.userName ≠ [] ∧ trimL s.userEmail ≠ [] ∧ '@' ∈ s.userEmail then
    ({ s with isRegistered := true, pendingAcquisition := true }, [])
  else
    (s, [Ev.validationAlert])

/-- The body of `moveDot` (`App.tsx` lines 98-107) for one firing, with the
two `Math.random()` draws passed explicitly: set the dot position, advance
`elapsed` by `moveInterval`, and schedule the next timeout only while
`elapsed < totalDuration`. -/
def moveDot (rx ry : ℚ) (s : AppState) : AppState × List Ev :=
  let x := sampleCoord rx
  let y := sampleCoord ry
  let s1 := { s with dotPosition := (x, y), dotElapsed := s.dotElapsed + moveInterval }
  if s1.dotElapsed < totalDuration then
    ({ s1 with dotTimerRef := some s1.nextTimerId,
               liveTimeouts := s1.liveTimeouts ++ [s1.nextTimerId],
               nextTimerId := s1.nextTimerId + 1 }, [Ev.move x y])
  else
    (s1, [Ev.move x y])

/-- `moveDotRandomly` (`App.tsx` lines 93-110): reset the `elapsed` closure
variable to `0` and run the first `moveDot` immediately. -/
def moveDotRandomly (rx ry : ℚ) (s : AppState) : AppState × List Ev :=
  moveDot rx ry { s with dotElapsed := 0 }

/-- `endChallenge` (`App.tsx` lines 113-133): clear the challenge-active
flag, clear the countdown interval and the dot timeout (nulling both refs),
and store a `ChallengeResult` with status `evaluateVerdict r` (for the
`Math.random()` draw `r`), duration `6`, and the current instant. -/
def endChallenge (r : ℚ) (s : AppState) : AppState × List Ev :=
  ({ s with
      isChallengeActive := false,
      liveIntervals :=
        match s.challengeTimerRef with
        | some tid => s.liveIntervals.erase tid
        | none => s.liveIntervals,
      challengeTimerRef := none,
      liveTimeouts :=
        match s.dotTimerRef with
        | some tid => s.liveTimeouts.erase tid
        | none => s.liveTimeouts,
      dotTimerRef := none,
      challengeResult :=
        some { status := evaluateVerdict r, duration := 6,
               timestamp := s.clock } },
   [Ev.complete])

/-- The `setInterval` callback installed by `startChallenge`
(`App.tsx` lines 78-86): with `prev` the current `timeLeft`, if `prev <= 1`
then run `endChallenge` and update `timeLeft` to `0`, else decrement.  Every
update of `timeLeft` is emitted as a `tick` event. -/
def challengeTick (r : ℚ) (s : AppState) : AppState × List Ev :=
  if s.timeLeft ≤ 1 then
    let p := endChallenge r s
    ({ p.1 with timeLeft := 0 }, p.2 ++ [Ev.tick 0])
  else
    ({ s with timeLeft := s.timeLeft - 1 }, [Ev.tick (s.timeLeft - 1)])

/-- `startChallenge` (`App.tsx` lines 70-90): return immediately unless the
camera is active; otherwise set the challenge-active flag, clear any stale
result, reset the clock to 6, install the countdown interval, and start the
dot animation (`moveDotRandomly`). -/
def startChallenge (rx ry : ℚ) (s : AppState) : AppState × List Ev :=
  if s.isCameraActive = false then (s, [])
  else
    let s1 := { s with isChallengeActive := true, challengeResult := none,
                       timeLeft := 6 }
    let s2 := { s1 with challengeTimerRef := some s1.nextTimerId,
                        liveIntervals := s1.liveIntervals ++ [s1.nextTimerId],
                        nextTimerId := s1.nextTimerId + 1 }
    moveDotRandomly rx ry s2

/-- `submitResult` (`App.tsx` lines 136-143): if a result is stored, publish
it, clear it and reset `timeLeft`; otherwise do nothing. -/
def submitResult (s : AppState) : AppState × List Ev :=
  match s.challengeResult with
  | some r => ({ s with challengeResult := none, timeLeft := 0 }, [Ev.publish r])
  | none => (s, [])

/-- The unmount cleanup of the `useEffect` (`App.tsx` lines 146-152):
`stopCamera()`, then clear the countdown interval and the dot timeout if
their refs are set (the refs themselves are not nulled here, matching the
code). -/
def cleanup (s : AppState) : AppState :=
  let s1 := stopCamera s
  { s1 with
      liveIntervals :=
        match s1.challengeTimerRef with
        | some tid => s1.liveIntervals.erase tid
        | none => s1.liveIntervals,
      liveTimeouts :=
        match s1.dotTimerRef with
        | some tid => s1.liveTimeouts.erase tid
        | none => s1.liveTimeouts }

/-- Emission instants of one `moveDotRandomly` run (`App.tsx` lines
93-110), denotationally: `moveDotTimes elapsed tNow` is the list of
instants (in ms from the start of the run) at which `moveDot` fires, given
that a firing happens now at instant `tNow` with the closure variable
`elapsed` holding the given value.  A further timeout is scheduled exactly
when `elapsed + moveInterval < totalDuration`, mirroring lines 103-106. -/
def moveDotTimes (elapsed tNow : ℕ) : List ℕ :=
  if h : elapsed + moveInterval < totalDuration then
    tNow :: moveDotTimes (elapsed + moveInterval) (tNow + moveInterval)
  else
    [tNow]
termination_by totalDuration - elapsed
decreasing_by
  simp only [moveInterval, totalDuration] at *
  omega

/-- Interaction events driving the component: text input, the three
buttons, resolution of the camera promise, mounting state of the video
sink, firings of live timers, and unmount. -/
inductive Act where
  | setName (n : List Char)
  | setEmail (e : List Char)
  | clickRegister
  | cameraOk (k : ℕ)
  | cameraFail
  | videoAttach
  | videoDetach
  | clickStart (rx ry : ℚ)
  | intervalFire (tid : ℕ) (r : ℚ)
  | timeoutFire (tid : ℕ) (rx ry : ℚ)
  | clickSubmit
  | unmount
  deriving DecidableEq

/-- One interaction step.  UI events (inputs and button clicks) can occur
only while the component is mounted and the corresponding control is
rendered and enabled: the registration form is rendered only while
unregistered, and the Start Challenge button (`App.tsx` lines 302-309) is
rendered only when registered and `disabled` unless the camera is active
and no challenge is running.  A timer callback can fire only while that
timer is live (created and not cleared; a timeout also dies by firing).
The camera promise resolution consumes the pending acquisition. -/
def step (a : Act) (s : AppState) : AppState × List Ev :=
  match a with
  | .setName n =>
      if s.appMounted = true ∧ s.isRegistered = false then
        ({ s with userName := n }, [])
      else (s, [])
  | .setEmail e =>
      if s.appMounted = true ∧ s.isRegistered = false then
        ({ s with userEmail := e }, [])
      else (s, [])
  | .clickRegister =>
      if s.appMounted = true ∧ s.isRegistered = false then handleRegister s
      else (s, [])
  | .cameraOk k =>
      if s.pendingAcquisition = true then
        ({ startCameraResolve k s with pendingAcquisition := false }, [])
      else (s, [])
  | .cameraFail =>
      if s.pendingAcquisition = true then
        ({ s with pendingAcquisition := false }, [Ev.cameraAlert])
      else (s, [])
  | .videoAttach =>
      if s.appMounted = true then ({ s with videoMounted := true }, [])
      else (s, [])
  | .videoDetach => ({ s with videoMounted := false }, [])
  | .clickStart rx ry =>
      if s.appMounted = true ∧ s.isRegistered = true ∧
         s.isCameraActive = true ∧ s.isChallengeActive = false then
        startChallenge rx ry s
      else (s, [])
  | .intervalFire tid r =>
      if tid ∈ s.liveIntervals then challengeTick r s else (s, [])
  | .timeoutFire tid rx ry =>
      if tid ∈ s.liveTimeouts then
        moveDot rx ry { s with liveTimeouts := s.liveTimeouts.erase tid }
      else (s, [])
  | .clickSubmit =>
      if s.appMounted = true ∧ s.isRegistered = true then submitResult s
      else (s, [])
  | .unmount =>
      if s.appMounted = true then
        ({ cleanup s with appMounted := false, videoMounted := false }, [])
      else (s, [])

/-- Run a list of interaction steps, accumulating the emitted events. -/
def run (l : List Act) (s : AppState) : AppState × List Ev :=
  match l with
  | [] => (s, [])
  | a :: t =>
      let p := step a s
      let q := run t p.1
      (q.1, p.2 ++ q.2)

/-! ### Helper lemmas about JavaScript `trim` -/

/-- A member of a list that fails the predicate survives `dropWhile`. -/
theorem mem_dropWhile_of_mem {c : Char} :
    ∀ {l : List Char}, c ∈ l → jsWhitespace c = false →
      c ∈ l.dropWhile jsWhitespace := by
  intro l hc hw
  induction l with
  | nil => cases hc
  | cons a t ih =>
    rcases List.mem_cons.mp hc with hca | hct
    · subst hca
      simp [List.dropWhile_cons, hw]
    · rw [List.dropWhile_cons]
      split
      · exact ih hct
      · exact List.mem_cons_of_mem _ hct

/-- A string containing `'@'` has non-empty JavaScript trim: `'@'` is not
whitespace, so it survives both `dropWhile` passes. -/
theorem trimL_ne_nil_of_at {l : List Char} (h : '@' ∈ l) : trimL l ≠ [] := by
  have hw : jsWhitespace '@' = false := by decide
  have h1 : '@' ∈ l.dropWhile jsWhitespace := mem_dropWhile_of_mem h hw
  have h2 : '@' ∈ (l.dropWhile jsWhitespace).reverse := List.mem_reverse.mpr h1
  have h3 : '@' ∈ (l.dropWhile jsWhitespace).reverse.dropWhile jsWhitespace :=
    mem_dropWhile_of_mem h2 hw
  have h4 : '@' ∈ trimL l := by
    unfold trimL
    exact List.mem_reverse.mpr h3
  intro hnil
  rw [hnil] at h4
  cases h4

/-- The registration condition actually tested by `handleRegister`
(`App.tsx` line 61) is equivalent to the condition stated by the spec:
the `email.trim()` truthiness check is implied by `email.includes('@')`. -/
theorem regCond_iff (name email : List Char) :
    (trimL name ≠ [] ∧ trimL email ≠ [] ∧ '@' ∈ email) ↔
      (trimL name ≠ [] ∧ '@' ∈ email) := by
  constructor
  · rintro ⟨hn, _, he⟩
    exact ⟨hn, he⟩
  · rintro ⟨hn, he⟩
    exact ⟨hn, trimL_ne_nil_of_at he, he⟩

/-! ### The reachable-state invariant -/

/-- Invariant of reachable component states, tying the browser timer
environment to the component refs: the camera flag mirrors stream
ownership; when no challenge is running there is no countdown interval ref
and no live dot timeout; at most the ref'd interval (resp. timeout) is
live; an active camera implies a completed registration and a mounted
component; a pending acquisition implies registration; and a mounted video
sink implies a mounted component. -/
structure Inv (s : AppState) : Prop where
  cam_stream : s.isCameraActive = s.streamRef.isSome
  inactive_clean : s.isChallengeActive = false →
    s.challengeTimerRef = none ∧ s.liveTimeouts = []
  intervals_ref : s.liveIntervals = [] ∨
    ∃ tid, s.challengeTimerRef = some tid ∧ s.liveIntervals = [tid]
  timeouts_ref : s.liveTimeouts = [] ∨
    ∃ tid, s.dotTimerRef = some tid ∧ s.liveTimeouts = [tid]
  cam_reg : s.isCameraActive = true → s.isRegistered = true
  pending_reg : s.pendingAcquisition = true → s.isRegistered = true
  unmounted_cam : s.appMounted = false → s.isCameraActive = false
  video_app : s.videoMounted = true → s.appMounted = true

theorem init_inv : Inv init := by
  constructor <;> simp [init]

/-- Clearing the ref'd timer empties the live list, provided at most the
ref'd timer is live. -/
theorem clear_ref_live {ref : Option ℕ} {live : List ℕ}
    (h : live = [] ∨ ∃ tid, ref = some tid ∧ live = [tid]) :
    (match ref with
     | some tid => live.erase tid
     | none => live) = [] := by
  rcases h with h | ⟨d, hd, hl⟩
  · cases ref <;> simp [h]
  · rw [hd, hl]
    simp

/-- Every interaction step preserves the invariant. -/
theorem step_inv {s : AppState} (a : Act) (h : Inv s) : Inv (step a s).1 := by
  cases a with
  | setName n =>
      simp only [step]
      split
      · exact ⟨h.cam_stream, h.inactive_clean, h.intervals_ref, h.timeouts_ref,
          h.cam_reg, h.pending_reg, h.unmounted_cam, h.video_app⟩
      · exact h
  | setEmail e =>
      simp only [step]
      split
      · exact ⟨h.cam_stream, h.inactive_clean, h.intervals_ref, h.timeouts_ref,
          h.cam_reg, h.pending_reg, h.unmounted_cam, h.video_app⟩
      · exact h
  | clickRegister =>
      simp only [step]
      split
      · simp only [handleRegister]
        split
        · exact ⟨h.cam_stream, h.inactive_clean, h.intervals_ref, h.timeouts_ref,
            fun _ => rfl, fun _ => rfl, h.unmounted_cam, h.video_app⟩
        · exact h
      · exact h
  | cameraOk k =>
      simp only [step]
      split
      · next hp =>
          by_cases hv : s.videoMounted = true
          · simp only [startCameraResolve, if_pos hv]
            refine ⟨rfl, h.inactive_clean, h.intervals_ref, h.timeouts_ref,
              fun _ => h.pending_reg hp, ?_, ?_, h.video_app⟩
            · intro hpc
              cases hpc
            · intro hm
              rw [h.video_app hv] at hm
              cases hm
          · simp only [startCameraResolve, if_neg hv]
            refine ⟨h.cam_stream, h.inactive_clean, h.intervals_ref, h.timeouts_ref,
              h.cam_reg, ?_, h.unmounted_cam, h.video_app⟩
            intro hpc
            cases hpc
      · exact h
  | cameraFail =>
      simp only [step]
      split
      · refine ⟨h.cam_stream, h.inactive_clean, h.intervals_ref, h.timeouts_ref,
          h.cam_reg, ?_, h.unmounted_cam, h.video_app⟩
        intro hpc
        cases hpc
      · exact h
  | videoAttach =>
      simp only [step]
      split
      · next hm =>
          exact ⟨h.cam_stream, h.inactive_clean, h.intervals_ref, h.timeouts_ref,
            h.cam_reg, h.pending_reg, h.unmounted_cam, fun _ => hm⟩
      · exact h
  | videoDetach =>
      refine ⟨h.cam_stream, h.inactive_clean, h.intervals_ref, h.timeouts_ref,
        h.cam_reg, h.pending_reg, h.unmounted_cam, ?_⟩
      intro hv
      cases hv
  | clickStart rx ry =>
      simp only [step]
      split
      · next hg =>
          obtain ⟨hm, hreg, hcam, hch⟩ := hg
          obtain ⟨href, hlt⟩ := h.inactive_clean hch
          have hli : s.liveIntervals = [] := by
            rcases h.intervals_ref with hi | ⟨tid, htid, _⟩
            · exact hi
            · rw [href] at htid
              cases htid
          simp only [startChallenge, hcam, moveDotRandomly, moveDot, moveInterval,
            totalDuration, sampleCoord]
          norm_num
          refine ⟨?_, ?_, Or.inr ⟨s.nextTimerId, rfl, ?_⟩,
            Or.inr ⟨s.nextTimerId + 1, rfl, ?_⟩, fun _ => hreg, h.pending_reg, ?_,
            h.video_app⟩
          · rw [← hcam]
            exact h.cam_stream
          · intro hc
            cases hc
          · rw [hli]
            rfl
          · rw [hlt]
            rfl
          · intro hm2
            rw [hm] at hm2
            cases hm2
      · exact h
  | intervalFire tid r =>
      simp only [step]
      split
      · next hmem =>
          rcases h.intervals_ref with hi | ⟨j, hj, hlive⟩
          · rw [hi] at hmem
            cases hmem
          · rw [hlive] at hmem
            have htj : tid = j := by simpa using hmem
            subst htj
            simp only [challengeTick]
            split
            · simp only [endChallenge]
              refine ⟨h.cam_stream, fun _ => ⟨rfl, ?_⟩, Or.inl ?_, Or.inl ?_,
                h.cam_reg, h.pending_reg, h.unmounted_cam, h.video_app⟩
              · exact clear_ref_live h.timeouts_ref
              · rw [hj, hlive]
                simp
              · exact clear_ref_live h.timeouts_ref
            · exact ⟨h.cam_stream, h.inactive_clean, h.intervals_ref,
                h.timeouts_ref, h.cam_reg, h.pending_reg, h.unmounted_cam,
                h.video_app⟩
      · exact h
  | timeoutFire tid rx ry =>
      simp only [step]
      split
      · next hmem =>
          rcases h.timeouts_ref with hi | ⟨d, hd, hlive⟩
          · rw [hi] at hmem
            cases hmem
          · rw [hlive] at hmem
            have htd : tid = d := by simpa using hmem
            subst htd
            have hact : s.isChallengeActive = true := by
              by_contra hc
              have hc2 : s.isChallengeActive = false := by
                cases hca : s.isChallengeActive
                · rfl
                · exact absurd hca hc
              have := (h.inactive_clean hc2).2
              rw [this] at hlive
              cases hlive
            simp only [moveDot]
            split
            · refine ⟨h.cam_stream, ?_, h.intervals_ref,
                Or.inr ⟨s.nextTimerId, rfl, ?_⟩, h.cam_reg, h.pending_reg,
                h.unmounted_cam, h.video_app⟩
              · intro hc
                rw [hact] at hc
                cases hc
              · rw [hlive]
                simp
            · refine ⟨h.cam_stream, ?_, h.intervals_ref, Or.inl ?_, h.cam_reg,
                h.pending_reg, h.unmounted_cam, h.video_app⟩
              · intro hc
                rw [hact] at hc
                cases hc
              · rw [hlive]
                simp
      · exact h
  | clickSubmit =>
      simp only [step]
      split
      · simp only [submitResult]
        cases hres : s.challengeResult with
        | some r =>
            exact ⟨h.cam_stream, h.inactive_clean, h.intervals_ref,
              h.timeouts_ref, h.cam_reg, h.pending_reg, h.unmounted_cam,
              h.video_app⟩
        | none =>
            exact ⟨h.cam_stream, h.inactive_clean, h.intervals_ref,
              h.timeouts_ref, h.cam_reg, h.pending_reg, h.unmounted_cam,
              h.video_app⟩
      · exact h
  | unmount =>
      simp only [step]
      split
      · simp only [cleanup]
        cases hstream : s.streamRef with
        | some k =>
            simp only [stopCamera, hstream]
            refine ⟨rfl, ?_, Or.inl (clear_ref_live h.intervals_ref),
              Or.inl (clear_ref_live h.timeouts_ref), ?_, h.pending_reg,
              fun _ => rfl, ?_⟩
            · intro hc
              exact ⟨(h.inactive_clean hc).1, clear_ref_live h.timeouts_ref⟩
            · intro hc
              cases hc
            · intro hv
              cases hv
        | none =>
            simp only [stopCamera, hstream]
            have hcam : s.isCameraActive = false := by
              rw [h.cam_stream, hstream]
              rfl
            refine ⟨?_, ?_, Or.inl (clear_ref_live h.intervals_ref),
              Or.inl (clear_ref_live h.timeouts_ref), ?_, h.pending_reg,
              fun _ => hcam, ?_⟩
            · simp [hcam]
            · intro hc
              exact ⟨(h.inactive_clean hc).1, clear_ref_live h.timeouts_ref⟩
            · intro hc
              rw [hcam] at hc
              cases hc
            · intro hv
              cases hv
      · exact h

/-- Running any list of interaction steps preserves the invariant. -/
theorem run_inv {s : AppState} (l : List Act) (h : Inv s) : Inv (run l s).1 := by
  induction l generalizing s with
  | nil => exact h
  | cons a t ih =>
      simp only [run]
      exact ih (step_inv a h)

/-- Every state reachable from the initial state satisfies the invariant. -/
theorem reachable_inv (l : List Act) : Inv (run l init).1 :=
  run_inv l init_inv

/-! ### Claim theorems -/

/-- C4: for every `(name, email)` pair, `handleRegister` succeeds — sets
the registered flag and launches device acquisition — exactly when the
trimmed name is non-empty and the email contains `'@'`; for every other
input it fails with the validation alert and the orchestrator state
(registration flag, device state, challenge state, result) is unchanged. -/
theorem c4_register_validation (s : AppState) :
    ((trimL s.userName ≠ [] ∧ '@' ∈ s.userEmail) →
      handleRegister s =
        ({ s with isRegistered := true, pendingAcquisition := true }, [])) ∧
    (¬(trimL s.userName ≠ [] ∧ '@' ∈ s.userEmail) →
      handleRegister s = (s, [Ev.validationAlert])) := by
  constructor
  · intro hok
    rw [handleRegister, if_pos ((regCond_iff _ _).mpr hok)]
  · intro hbad
    rw [handleRegister, if_neg (fun hc => hbad ((regCond_iff _ _).mp hc))]

theorem c4_register_validation_witness :
    (trimL ("Alice".toList) ≠ [] ∧ '@' ∈ "a@b.com".toList) ∧
    handleRegister
        { init with userName := "Alice".toList, userEmail := "a@b.com".toList } =
      ({ init with
          userName := "Alice".toList, userEmail := "a@b.com".toList,
          isRegistered := true, pendingAcquisition := true }, []) :=
  ⟨by decide,
   (c4_register_validation
     { init with userName := "Alice".toList, userEmail := "a@b.com".toList }).1
     (by decide)⟩

/-- C10: when `getUserMedia` resolves successfully, the camera-active flag
is set and the acquired stream stored and bound to the display sink only if
the video sink element is mounted at that moment; if the sink is absent,
the state is unchanged — the fresh stream is neither stored nor stopped. -/
theorem c10_camera_resolve_guard (s : AppState) (k : ℕ) :
    (s.videoMounted = true →
      startCameraResolve k s =
        { s with videoSrc := some k, streamRef := some k,
                 isCameraActive := true }) ∧
    (s.videoMounted = false →
      startCameraResolve k s = s ∧
      (startCameraResolve k s).streamRef = s.streamRef ∧
      (startCameraResolve k s).stoppedStreams = s.stoppedStreams ∧
      (startCameraResolve k s).isCameraActive = s.isCameraActive) := by
  constructor
  · intro hv
    rw [startCameraResolve, if_pos hv]
  · intro hv
    have hne : ¬ s.videoMounted = true := by
      rw [hv]
      intro hc
      cases hc
    refine ⟨?_, ?_, ?_, ?_⟩ <;> rw [startCameraResolve, if_neg hne]

theorem c10_camera_resolve_guard_witness :
    (({ init with videoMounted := true } : AppState).videoMounted = true) ∧
    startCameraResolve 7 { init with videoMounted := true } =
      { init with
          videoMounted := true, videoSrc := some 7,
          streamRef := some 7, isCameraActive := true } :=
  ⟨rfl, (c10_camera_resolve_guard { init with videoMounted := true } 7).1 rfl⟩

/-- C8: `submitResult` in a result-ready state publishes the stored result
and clears it; a second call before a new challenge is a no-op publishing
nothing; and `startChallenge` discards any unconsumed prior result when a
new challenge begins. -/
theorem c8_result_lifecycle (s : AppState) (res : ChallengeResult)
    (hres : s.challengeResult = some res) :
    submitResult s =
      ({ s with challengeResult := none, timeLeft := 0 }, [Ev.publish res]) ∧
    submitResult { s with challengeResult := none, timeLeft := 0 } =
      ({ s with challengeResult := none, timeLeft := 0 }, []) ∧
    (∀ rx ry : ℚ, s.isCameraActive = true →
      ((startChallenge rx ry s).1).challengeResult = none) := by
  refine ⟨?_, ?_, ?_⟩
  · simp only [submitResult, hres]
  · rfl
  · intro rx ry hcam
    simp [startChallenge, hcam, moveDotRandomly, moveDot, moveInterval,
      totalDuration]

theorem c8_result_lifecycle_witness :
    (({ init with challengeResult := some ⟨Status.PASS, 6, 0⟩ } : AppState).challengeResult =
      some ⟨Status.PASS, 6, 0⟩) ∧
    submitResult { init with challengeResult := some ⟨Status.PASS, 6, 0⟩ } =
      ({ init with challengeResult := none, timeLeft := 0 },
       [Ev.publish ⟨Status.PASS, 6, 0⟩]) :=
  ⟨rfl,
   (c8_result_lifecycle { init with challengeResult := some ⟨Status.PASS, 6, 0⟩ }
     ⟨Status.PASS, 6, 0⟩ rfl).1⟩

/-- C3: after the unmount cleanup, the device session (if any) is released
— its tracks stopped and the stream ref cleared — and both timers are
cleared, so no further tick, move, or completion callback can fire: firing
any interval or timeout on the cleaned state is a no-op emitting no
events.  Releasing when no session exists, or releasing twice, is a no-op
and never an error, in every state.  The hypotheses are the reachable-state
invariant facts (`Inv`) about the camera flag and the live timers. -/
theorem c3_cleanup_releases (s : AppState)
    (hcs : s.isCameraActive = s.streamRef.isSome)
    (hint : s.liveIntervals = [] ∨
      ∃ tid, s.challengeTimerRef = some tid ∧ s.liveIntervals = [tid])
    (htout : s.liveTimeouts = [] ∨
      ∃ tid, s.dotTimerRef = some tid ∧ s.liveTimeouts = [tid]) :
    (cleanup s).streamRef = none ∧
    (cleanup s).isCameraActive = false ∧
    (∀ k, s.streamRef = some k → k ∈ (cleanup s).stoppedStreams) ∧
    (cleanup s).liveIntervals = [] ∧
    (cleanup s).liveTimeouts = [] ∧
    (∀ tid r, step (Act.intervalFire tid r) (cleanup s) = (cleanup s, [])) ∧
    (∀ tid rx ry, step (Act.timeoutFire tid rx ry) (cleanup s) = (cleanup s, [])) ∧
    stopCamera (cleanup s) = cleanup s ∧
    (∀ t : AppState, t.streamRef = none → stopCamera t = t) ∧
    (∀ t : AppState, stopCamera (stopCamera t) = stopCamera t) := by
  have hli : (cleanup s).liveIntervals = [] := by
    cases hstream : s.streamRef <;>
      simp only [cleanup, stopCamera, hstream] <;>
      exact clear_ref_live hint
  have hlt : (cleanup s).liveTimeouts = [] := by
    cases hstream : s.streamRef <;>
      simp only [cleanup, stopCamera, hstream] <;>
      exact clear_ref_live htout
  have hsr : (cleanup s).streamRef = none := by
    cases hstream : s.streamRef <;>
      simp only [cleanup, stopCamera, hstream]
  refine ⟨hsr, ?_, ?_, hli, hlt, ?_, ?_, ?_, ?_, ?_⟩
  · cases hstream : s.streamRef <;>
      simp only [cleanup, stopCamera, hstream]
    rw [hcs, hstream]
    rfl
  · intro k hk
    simp only [cleanup, stopCamera, hk]
    exact List.mem_append_right _ (List.mem_singleton.mpr rfl)
  · intro tid r
    simp [step, hli]
  · intro tid rx ry
    simp [step, hlt]
  · simp only [stopCamera, hsr]
  · intro t ht
    simp only [stopCamera, ht]
  · intro t
    cases ht : t.streamRef
    · simp only [stopCamera, ht]
    · simp only [stopCamera, ht]

theorem c3_cleanup_releases_witness :
    (({ init with
          streamRef := some 3, isCameraActive := true,
          challengeTimerRef := some 0, liveIntervals := [0],
          dotTimerRef := some 1, liveTimeouts := [1] } : AppState).isCameraActive =
      ({ init with
          streamRef := some 3, isCameraActive := true,
          challengeTimerRef := some 0, liveIntervals := [0],
          dotTimerRef := some 1, liveTimeouts := [1] } : AppState).streamRef.isSome) ∧
    (cleanup { init with
        streamRef := some 3, isCameraActive := true,
        challengeTimerRef := some 0, liveIntervals := [0],
        dotTimerRef := some 1, liveTimeouts := [1] }).streamRef = none :=
  ⟨rfl,
   (c3_cleanup_releases
     { init with
        streamRef := some 3, isCameraActive := true,
        challengeTimerRef := some 0, liveIntervals := [0],
        dotTimerRef := some 1, liveTimeouts := [1] }
     rfl (Or.inr ⟨0, rfl, rfl⟩) (Or.inr ⟨1, rfl, rfl⟩)).1⟩

/-- C1: in every reachable state, invoking the Start Challenge control is a
no-op (no state change, no events) unless the device is active and no
challenge is running (`DeviceActive(Idle)`); and at most one countdown
interval is ever live — in particular also after clicking Start twice in a
row, so two concurrent running countdowns never exist. -/
theorem c1_start_challenge_gated (l : List Act) (rx ry rx2 ry2 : ℚ) :
    (¬((run l init).1.isCameraActive = true ∧
        (run l init).1.isChallengeActive = false) →
      step (Act.clickStart rx ry) (run l init).1 = ((run l init).1, [])) ∧
    (run l init).1.liveIntervals.length ≤ 1 ∧
    (run (l ++ [Act.clickStart rx ry, Act.clickStart rx2 ry2])
        init).1.liveIntervals.length ≤ 1 := by
  refine ⟨?_, ?_, ?_⟩
  · intro hno
    simp only [step]
    rw [if_neg (fun hg => hno ⟨hg.2.2.1, hg.2.2.2⟩)]
  · rcases (reachable_inv l).intervals_ref with hi | ⟨tid, _, hlive⟩
    · rw [hi]
      simp
    · rw [hlive]
      simp
  · rcases (reachable_inv
        (l ++ [Act.clickStart rx ry, Act.clickStart rx2 ry2])).intervals_ref with
      hi | ⟨tid, _, hlive⟩
    · rw [hi]
      simp
    · rw [hlive]
      simp

theorem c1_start_challenge_gated_witness :
    (¬((run [] init).1.isCameraActive = true ∧
        (run [] init).1.isChallengeActive = false)) ∧
    step (Act.clickStart 0 0) (run [] init).1 = ((run [] init).1, []) :=
  ⟨by decide, (c1_start_challenge_gated [] 0 0 0 0).1 (by decide)⟩

/-- C2: from any state in which a challenge countdown has just started
(`timeLeft = 6` with exactly the ref'd countdown interval live), six
firings of the interval deliver exactly the remaining values
`5, 4, 3, 2, 1, 0` — no skips, no repeats — with `endChallenge` invoked
exactly once, at the final firing; afterwards the interval is cleared and
its ref nulled, so no further firing delivers anything. -/
theorem c2_countdown_sequence (s : AppState) (tid : ℕ)
    (r1 r2 r3 r4 r5 r6 : ℚ) (h6 : s.timeLeft = 6)
    (href : s.challengeTimerRef = some tid) (hlive : s.liveIntervals = [tid]) :
    (run [Act.intervalFire tid r1, Act.intervalFire tid r2,
          Act.intervalFire tid r3, Act.intervalFire tid r4,
          Act.intervalFire tid r5, Act.intervalFire tid r6] s).2 =
      [Ev.tick 5, Ev.tick 4, Ev.tick 3, Ev.tick 2, Ev.tick 1,
       Ev.complete, Ev.tick 0] ∧
    (run [Act.intervalFire tid r1, Act.intervalFire tid r2,
          Act.intervalFire tid r3, Act.intervalFire tid r4,
          Act.intervalFire tid r5, Act.intervalFire tid r6] s).1.liveIntervals
      = [] ∧
    (run [Act.intervalFire tid r1, Act.intervalFire tid r2,
          Act.intervalFire tid r3, Act.intervalFire tid r4,
          Act.intervalFire tid r5, Act.intervalFire tid r6] s).1.challengeTimerRef
      = none ∧
    (∀ tid2 r, step (Act.intervalFire tid2 r)
        (run [Act.intervalFire tid r1, Act.intervalFire tid r2,
              Act.intervalFire tid r3, Act.intervalFire tid r4,
              Act.intervalFire tid r5, Act.intervalFire tid r6] s).1 =
      ((run [Act.intervalFire tid r1, Act.intervalFire tid r2,
             Act.intervalFire tid r3, Act.intervalFire tid r4,
             Act.intervalFire tid r5, Act.intervalFire tid r6] s).1, [])) := by
  refine ⟨?_, ?_, ?_, ?_⟩
  · simp [run, step, challengeTick, endChallenge, h6, href, hlive]
  · simp [run, step, challengeTick, endChallenge, h6, href, hlive]
  · simp [run, step, challengeTick, endChallenge, h6, href, hlive]
  · intro tid2 r
    simp [run, step, challengeTick, endChallenge, h6, href, hlive]

theorem c2_countdown_sequence_witness :
    (({ init with
          isCameraActive := true, isChallengeActive := true, timeLeft := 6,
          challengeTimerRef := some 0, liveIntervals := [0] } : AppState).timeLeft
      = 6) ∧
    (run [Act.intervalFire 0 (1/2), Act.intervalFire 0 (1/2),
          Act.intervalFire 0 (1/2), Act.intervalFire 0 (1/2),
          Act.intervalFire 0 (1/2), Act.intervalFire 0 (1/2)]
        { init with
            isCameraActive := true, isChallengeActive := true, timeLeft := 6,
            challengeTimerRef := some 0, liveIntervals := [0] }).2 =
      [Ev.tick 5, Ev.tick 4, Ev.tick 3, Ev.tick 2, Ev.tick 1,
       Ev.complete, Ev.tick 0] :=
  ⟨rfl,
   (c2_countdown_sequence
     { init with
         isCameraActive := true, isChallengeActive := true, timeLeft := 6,
         challengeTimerRef := some 0, liveIntervals := [0] }
     0 (1/2) (1/2) (1/2) (1/2) (1/2) (1/2) rfl rfl rfl).1⟩

/-- C5: `endChallenge` stops both schedulers (both live timer lists become
empty, both refs nulled), deactivates the challenge, and stores a result
with duration 6 whose status is PASS exactly when the verdict draw exceeds
0.3; under the uniform draw on `[0,1)` the PASS outcomes (draws above 3/10)
have measure 7/10.  The list hypotheses are the reachable-state invariant
facts about the live timers. -/
theorem c5_end_challenge (s : AppState) (r : ℚ)
    (hint : s.liveIntervals = [] ∨
      ∃ tid, s.challengeTimerRef = some tid ∧ s.liveIntervals = [tid])
    (htout : s.liveTimeouts = [] ∨
      ∃ tid, s.dotTimerRef = some tid ∧ s.liveTimeouts = [tid]) :
    (endChallenge r s).1.isChallengeActive = false ∧
    (endChallenge r s).1.liveIntervals = [] ∧
    (endChallenge r s).1.liveTimeouts = [] ∧
    (endChallenge r s).1.challengeTimerRef = none ∧
    (endChallenge r s).1.dotTimerRef = none ∧
    (endChallenge r s).1.challengeResult =
      some { status := evaluateVerdict r, duration := 6,
             timestamp := s.clock } ∧
    (evaluateVerdict r = Status.PASS ↔ 3/10 < r) ∧
    (endChallenge r s).2 = [Ev.complete] ∧
    MeasureTheory.volume {x : ℝ | x ∈ Set.Ico (0:ℝ) 1 ∧ 3/10 < x} =
      ENNReal.ofReal (7/10) := by
  refine ⟨rfl, clear_ref_live hint, clear_ref_live htout, rfl, rfl, rfl,
    ?_, rfl, ?_⟩
  · unfold evaluateVerdict
    split_ifs with hc
    · exact iff_of_true rfl hc
    · exact iff_of_false (by decide) hc
  · have hset : {x : ℝ | x ∈ Set.Ico (0:ℝ) 1 ∧ 3/10 < x} =
        Set.Ioo (3/10 : ℝ) 1 := by
      ext x
      simp only [Set.mem_setOf_eq, Set.mem_Ico, Set.mem_Ioo]
      constructor
      · rintro ⟨⟨hx0, hx1⟩, hx3⟩
        exact ⟨hx3, hx1⟩
      · rintro ⟨hx3, hx1⟩
        refine ⟨⟨?_, hx1⟩, hx3⟩
        linarith
    rw [hset, Real.volume_Ioo]
    norm_num

theorem c5_end_challenge_witness :
    (({ init with
          isChallengeActive := true, challengeTimerRef := some 0,
          liveIntervals := [0] } : AppState).liveIntervals = [] ∨
      ∃ tid, ({ init with
          isChallengeActive := true, challengeTimerRef := some 0,
          liveIntervals := [0] } : AppState).challengeTimerRef = some tid ∧
        ({ init with
            isChallengeActive := true, challengeTimerRef := some 0,
            liveIntervals := [0] } : AppState).liveIntervals = [tid]) ∧
    ((endChallenge (1/2)
        { init with
            isChallengeActive := true, challengeTimerRef := some 0,
            liveIntervals := [0] }).1.liveIntervals = []) :=
  ⟨Or.inr ⟨0, rfl, rfl⟩,
   (c5_end_challenge
     { init with
         isChallengeActive := true, challengeTimerRef := some 0,
         liveIntervals := [0] }
     (1/2) (Or.inr ⟨0, rfl, rfl⟩) (Or.inl rfl)).2.1⟩

/-- C6 (amended): at the zero-crossing the code fires BOTH events in the
same interval callback — `endChallenge` runs and the same callback then
delivers the tick with remaining `0` — each exactly once, completion
first; they are not mutually exclusive. -/
theorem c6_zero_crossing_both_fire (s : AppState) (tid : ℕ) (r : ℚ)
    (hmem : tid ∈ s.liveIntervals) (hfin : s.timeLeft ≤ 1) :
    (step (Act.intervalFire tid r) s).2 = [Ev.complete, Ev.tick 0] := by
  simp [step, hmem, challengeTick, hfin, endChallenge]

theorem c6_zero_crossing_both_fire_witness :
    (0 ∈ ({ init with
        isCameraActive := true, isChallengeActive := true, timeLeft := 1,
        challengeTimerRef := some 0, liveIntervals := [0] } : AppState).liveIntervals) ∧
    (step (Act.intervalFire 0 (1/2))
        { init with
            isCameraActive := true, isChallengeActive := true, timeLeft := 1,
            challengeTimerRef := some 0, liveIntervals := [0] }).2 =
      [Ev.complete, Ev.tick 0] :=
  ⟨by decide,
   c6_zero_crossing_both_fire
     { init with
         isCameraActive := true, isChallengeActive := true, timeLeft := 1,
         challengeTimerRef := some 0, liveIntervals := [0] }
     0 (1/2) (by decide) (by decide)⟩

/-- C6 (counterexample): concrete refutation of the claimed mutual
exclusion at the zero-crossing: from a running challenge with one second
left, the final interval firing emits both the completion and the
`tick 0` event at the same logical instant. -/
theorem c6_counterexample :
    Ev.complete ∈ (step (Act.intervalFire 0 (1/2))
        { init with
            isCameraActive := true, isChallengeActive := true, timeLeft := 1,
            challengeTimerRef := some 0, liveIntervals := [0] }).2 ∧
    Ev.tick 0 ∈ (step (Act.intervalFire 0 (1/2))
        { init with
            isCameraActive := true, isChallengeActive := true, timeLeft := 1,
            challengeTimerRef := some 0, liveIntervals := [0] }).2 := by
  decide

/-- C7: every coordinate emitted for the dot satisfies the 10–90 bound (in
CSS percent, i.e. 0.10–0.90 as a viewport fraction); the position set by a
`moveDot` firing is exactly `(sampleCoord rx, sampleCoord ry)` — a function
of the two fresh draws only, independent of the previous position, so
repeats of successive positions are permitted; and since each draw is
uniform on `[0,1)`, the coordinate is uniform on the 10–90 range: the set
of draws landing in any `[a, b]` inside `[10, 90]` has measure
`(b - a) / 80`. -/
theorem c7_dot_position_bounds (rx ry : ℚ) (s : AppState)
    (hx0 : 0 ≤ rx) (hx1 : rx < 1) (hy0 : 0 ≤ ry) (hy1 : ry < 1) :
    (10 ≤ sampleCoord rx ∧ sampleCoord rx ≤ 90 ∧
     10 ≤ sampleCoord ry ∧ sampleCoord ry ≤ 90) ∧
    (1/10 ≤ sampleCoord rx / 100 ∧ sampleCoord rx / 100 ≤ 9/10 ∧
     1/10 ≤ sampleCoord ry / 100 ∧ sampleCoord ry / 100 ≤ 9/10) ∧
    ((moveDot rx ry s).1.dotPosition = (sampleCoord rx, sampleCoord ry) ∧
     (moveDot rx ry s).2 = [Ev.move (sampleCoord rx) (sampleCoord ry)]) ∧
    (∀ a b : ℝ, 10 ≤ a → a ≤ b → b ≤ 90 →
      MeasureTheory.volume
        {x : ℝ | x ∈ Set.Ico (0:ℝ) 1 ∧ a ≤ sampleCoordR x ∧ sampleCoordR x ≤ b}
        = ENNReal.ofReal ((b - a) / 80)) := by
  have hbx : 10 ≤ sampleCoord rx ∧ sampleCoord rx ≤ 90 := by
    unfold sampleCoord
    constructor <;> nlinarith
  have hby : 10 ≤ sampleCoord ry ∧ sampleCoord ry ≤ 90 := by
    unfold sampleCoord
    constructor <;> nlinarith
  refine ⟨⟨hbx.1, hbx.2, hby.1, hby.2⟩, ?_, ⟨?_, ?_⟩, ?_⟩
  · obtain ⟨ha1, ha2⟩ := hbx
    obtain ⟨hb1, hb2⟩ := hby
    refine ⟨?_, ?_, ?_, ?_⟩ <;> linarith
  · simp only [moveDot]
    split <;> rfl
  · simp only [moveDot]
    split <;> rfl
  · intro a b ha hab hb
    have h80 : (0:ℝ) < 80 := by norm_num
    have hsub1 : Set.Ioo ((a - 10) / 80) ((b - 10) / 80) ⊆
        {x : ℝ | x ∈ Set.Ico (0:ℝ) 1 ∧ a ≤ sampleCoordR x ∧ sampleCoordR x ≤ b} := by
      rintro x ⟨hl, hu⟩
      have hl0 : (0:ℝ) ≤ (a - 10) / 80 := div_nonneg (by linarith) (by norm_num)
      have hu1 : (b - 10) / 80 ≤ 1 := by
        rw [div_le_one h80]
        linarith
      have h1 : a - 10 < x * 80 := (div_lt_iff₀ h80).mp hl
      have h2 : x * 80 < b - 10 := (lt_div_iff₀ h80).mp hu
      refine ⟨⟨by linarith, by linarith⟩, ?_, ?_⟩ <;>
        (unfold sampleCoordR; linarith)
    have hsub2 : {x : ℝ | x ∈ Set.Ico (0:ℝ) 1 ∧
          a ≤ sampleCoordR x ∧ sampleCoordR x ≤ b} ⊆
        Set.Icc ((a - 10) / 80) ((b - 10) / 80) := by
      rintro x ⟨⟨hxl, hxu⟩, hax, hxb⟩
      unfold sampleCoordR at hax hxb
      exact ⟨(div_le_iff₀ h80).mpr (by linarith),
        (le_div_iff₀ h80).mpr (by linarith)⟩
    have heq : (b - 10) / 80 - (a - 10) / 80 = (b - a) / 80 := by ring
    refine le_antisymm ?_ ?_
    · refine le_trans (MeasureTheory.measure_mono hsub2) ?_
      rw [Real.volume_Icc, heq]
    · refine le_trans ?_ (MeasureTheory.measure_mono hsub1)
      rw [Real.volume_Ioo, heq]

theorem c7_dot_position_bounds_witness :
    ((0:ℚ) ≤ 0 ∧ (0:ℚ) < 1) ∧
    (10 ≤ sampleCoord 0 ∧ sampleCoord 0 ≤ 90 ∧
     10 ≤ sampleCoord 0 ∧ sampleCoord 0 ≤ 90) :=
  ⟨⟨by decide, by decide⟩,
   (c7_dot_position_bounds 0 0 init (by decide) (by decide)
     (by decide) (by decide)).1⟩

/-- C9: with `moveInterval = 800` and `totalDuration = 6000`, one
uncancelled `moveDotRandomly` run fires `moveDot` exactly 8 times —
immediately at instant 0 and then once every 800 ms up to 5600 ms — and a
further timeout is scheduled exactly while the advanced elapsed time is
still strictly below 6000 ms, after which the chain stops by itself; each
timeout firing emits exactly one position event. -/
theorem c9_motion_schedule (s : AppState) (tid : ℕ) (rx ry : ℚ)
    (hmem : tid ∈ s.liveTimeouts) :
    moveDotTimes 0 0 = [0, 800, 1600, 2400, 3200, 4000, 4800, 5600] ∧
    (moveDotTimes 0 0).length = 8 ∧
    (∀ e t : ℕ, e + moveInterval < totalDuration →
      moveDotTimes e t =
        t :: moveDotTimes (e + moveInterval) (t + moveInterval)) ∧
    (∀ e t : ℕ, ¬ e + moveInterval < totalDuration →
      moveDotTimes e t = [t]) ∧
    (step (Act.timeoutFire tid rx ry) s).2 =
      [Ev.move (sampleCoord rx) (sampleCoord ry)] := by
  refine ⟨?_, ?_, ?_, ?_, ?_⟩
  · simp [moveDotTimes, moveInterval, totalDuration]
  · simp [moveDotTimes, moveInterval, totalDuration]
  · intro e t h
    rw [moveDotTimes, dif_pos h]
  · intro e t h
    rw [moveDotTimes, dif_neg h]
  · simp [step, hmem, moveDot, apply_ite]

theorem c9_motion_schedule_witness :
    (0 ∈ ({ init with liveTimeouts := [0] } : AppState).liveTimeouts) ∧
    moveDotTimes 0 0 = [0, 800, 1600, 2400, 3200, 4000, 4800, 5600] :=
  ⟨by decide,
   (c9_motion_schedule { init with liveTimeouts := [0] } 0 0 0 (by decide)).1⟩

end BioMetric
